import Mathlib

/-!
Verification development for the Yahoo news ingestion script (src/main.py).

The script is embedded shallowly: pure helpers (date parsing/formatting,
keyword loading, deduplication) become Lean functions over `List Char` /
`String`; the stateful sheet-updating loops become explicit state passing
over lists of rows; the external HTTP / LLM calls become oracles passed in
as arguments (the row logic never depends on anything else).

Python `datetime.strptime` is modelled at the character level, following the
regular expressions CPython's `_strptime` module compiles for each format
directive (for example `%m` is `1[0-2]|0[1-9]|[1-9]`), together with the
range validation performed by the `datetime` constructor.
-/

/-- A naive timestamp.  All datetimes handled by the script carry the fixed
JST offset, so comparisons between them coincide with comparisons of the
wall-clock fields and the offset is not represented. -/
structure PyDateTime where
  year : Nat
  month : Nat
  day : Nat
  hour : Nat
  minute : Nat
  second : Nat
deriving DecidableEq, Repr

def isLeap (y : Nat) : Bool := (y % 4 = 0 && y % 100 ≠ 0) || (y % 400 = 0)

def daysInMonth (y m : Nat) : Nat :=
  if m = 2 then (if isLeap y then 29 else 28)
  else if m = 4 || m = 6 || m = 9 || m = 11 then 30
  else 31

/-- Validity check performed by the `datetime` constructor
(`MINYEAR = 1`, `MAXYEAR = 9999`, day within month, time fields in range). -/
def validDT (dt : PyDateTime) : Bool :=
  1 ≤ dt.year && dt.year ≤ 9999 && 1 ≤ dt.month && dt.month ≤ 12 &&
  1 ≤ dt.day && dt.day ≤ daysInMonth dt.year dt.month &&
  dt.hour ≤ 23 && dt.minute ≤ 59 && dt.second ≤ 59

/-- Number of leap years in `[1, y]`. -/
def leapCount (y : Nat) : Nat := y / 4 - y / 100 + y / 400

def daysBeforeMonth (y m : Nat) : Nat :=
  (match m with
   | 1 => 0 | 2 => 31 | 3 => 59 | 4 => 90 | 5 => 120 | 6 => 151
   | 7 => 181 | 8 => 212 | 9 => 243 | 10 => 273 | 11 => 304 | _ => 334)
  + (if 3 ≤ m && isLeap y then 1 else 0)

/-- Days since 0001-01-01 (proleptic Gregorian). -/
def dayNumber (dt : PyDateTime) : Nat :=
  365 * (dt.year - 1) + leapCount (dt.year - 1) + daysBeforeMonth dt.year dt.month + (dt.day - 1)

/-- Seconds on the absolute JST timeline; `datetime` comparison and
`timedelta` arithmetic are modelled through this. -/
def toSecs (dt : PyDateTime) : Nat :=
  dayNumber dt * 86400 + dt.hour * 3600 + dt.minute * 60 + dt.second

/-- `datetime.replace(year=y)`: revalidates the day against the new year
(so Feb 29 can fail) and the `MINYEAR`/`MAXYEAR` bounds. -/
def replaceYear (dt : PyDateTime) (y : Nat) : Option PyDateTime :=
  if 1 ≤ y && y ≤ 9999 && dt.day ≤ daysInMonth y dt.month then
    some { dt with year := y }
  else none

/- ===== character helpers (Python `str` methods on `List Char`) ===== -/

def isSpaceCh (c : Char) : Bool :=
  c = ' ' || c = '\t' || c = '\n' || c = '\r' || c = '\x0b' || c = '\x0c'

def isDig (c : Char) : Bool := decide ('0' ≤ c) && decide (c ≤ '9')

def dval (c : Char) : Nat := c.toNat - '0'.toNat

/-- The decimal digit character of `n % 10`. -/
def dchar (n : Nat) : Char :=
  match n % 10 with
  | 0 => '0' | 1 => '1' | 2 => '2' | 3 => '3' | 4 => '4'
  | 5 => '5' | 6 => '6' | 7 => '7' | 8 => '8' | _ => '9'

def pyLStrip (l : List Char) : List Char := l.dropWhile isSpaceCh

def pyRStrip (l : List Char) : List Char := (l.reverse.dropWhile isSpaceCh).reverse

/-- Python `str.strip()` (whitespace on both ends). -/
def pyStrip (l : List Char) : List Char := pyRStrip (pyLStrip l)

def isWeekdayCh (c : Char) : Bool :=
  c = '月' || c = '火' || c = '水' || c = '木' || c = '金' || c = '土' || c = '日'

/-- `re.sub(r"\([月火水木金土日]\)$", "", s)`: drop one trailing
parenthesized weekday token if present. -/
def stripWeekdayTok (l : List Char) : List Char :=
  match l.reverse with
  | ')' :: w :: '(' :: rest => if isWeekdayCh w then rest.reverse else l
  | _ => l

/-- `s.replace("配信", "")`: remove every (non-overlapping, left-to-right)
occurrence of the two-character suffix word. -/
def removeHaishin : List Char → List Char
  | [] => []
  | [c] => [c]
  | c :: c2 :: rest =>
    if c = '配' && c2 = '信' then removeHaishin rest
    else c :: removeHaishin (c2 :: rest)

/- ===== strptime format directives =====
Each parser consumes a prefix of the character list and returns the parsed
value together with the remainder, following the alternation structure of
the regex CPython compiles for the directive. -/

/-- `%Y` : `\d\d\d\d`. -/
def pY4 : List Char → Option (Nat × List Char)
  | a :: b :: c :: d :: rest =>
    if isDig a && isDig b && isDig c && isDig d then
      some (1000 * dval a + 100 * dval b + 10 * dval c + dval d, rest)
    else none
  | _ => none

/-- `%y` : `\d\d`, mapped to 2000–2068 / 1969–1999. -/
def pY2 : List Char → Option (Nat × List Char)
  | a :: b :: rest =>
    if isDig a && isDig b then
      let v := 10 * dval a + dval b
      some (if v ≤ 68 then 2000 + v else 1900 + v, rest)
    else none
  | _ => none

/-- `%m` : `1[0-2]|0[1-9]|[1-9]`. -/
def pMonth : List Char → Option (Nat × List Char)
  | [] => none
  | c1 :: rest =>
    if isDig c1 then
      if dval c1 = 1 then
        match rest with
        | c2 :: rest2 =>
          if isDig c2 && dval c2 ≤ 2 then some (10 + dval c2, rest2) else some (1, rest)
        | [] => some (1, rest)
      else if dval c1 = 0 then
        match rest with
        | c2 :: rest2 => if isDig c2 && 1 ≤ dval c2 then some (dval c2, rest2) else none
        | [] => none
      else some (dval c1, rest)
    else none

/-- `%d` : `3[01]|[12]\d|0[1-9]|[1-9]`. -/
def pDay : List Char → Option (Nat × List Char)
  | [] => none
  | c1 :: rest =>
    if isDig c1 then
      if dval c1 = 3 then
        match rest with
        | c2 :: rest2 =>
          if isDig c2 && dval c2 ≤ 1 then some (30 + dval c2, rest2) else some (3, rest)
        | [] => some (3, rest)
      else if 1 ≤ dval c1 && dval c1 ≤ 2 then
        match rest with
        | c2 :: rest2 =>
          if isDig c2 then some (10 * dval c1 + dval c2, rest2) else some (dval c1, rest)
        | [] => some (dval c1, rest)
      else if dval c1 = 0 then
        match rest with
        | c2 :: rest2 => if isDig c2 && 1 ≤ dval c2 then some (dval c2, rest2) else none
        | [] => none
      else some (dval c1, rest)
    else none

/-- `%H` : `2[0-3]|[0-1]\d|\d`. -/
def pHour : List Char → Option (Nat × List Char)
  | [] => none
  | c1 :: rest =>
    if isDig c1 then
      if dval c1 = 2 then
        match rest with
        | c2 :: rest2 =>
          if isDig c2 && dval c2 ≤ 3 then some (20 + dval c2, rest2) else some (2, rest)
        | [] => some (2, rest)
      else if dval c1 ≤ 1 then
        match rest with
        | c2 :: rest2 =>
          if isDig c2 then some (10 * dval c1 + dval c2, rest2) else some (dval c1, rest)
        | [] => some (dval c1, rest)
      else some (dval c1, rest)
    else none

/-- `%M` : `[0-5]\d|\d`. -/
def pMin : List Char → Option (Nat × List Char)
  | [] => none
  | c1 :: rest =>
    if isDig c1 then
      if dval c1 ≤ 5 then
        match rest with
        | c2 :: rest2 =>
          if isDig c2 then some (10 * dval c1 + dval c2, rest2) else some (dval c1, rest)
        | [] => some (dval c1, rest)
      else some (dval c1, rest)
    else none

/-- `%S` : `6[0-1]|[0-5]\d|\d` (61 allowed by the regex; the `datetime`
constructor then rejects seconds above 59, see `mkPyDateTime`). -/
def pSec : List Char → Option (Nat × List Char)
  | [] => none
  | c1 :: rest =>
    if isDig c1 then
      if dval c1 = 6 then
        match rest with
        | c2 :: rest2 =>
          if isDig c2 && dval c2 ≤ 1 then some (60 + dval c2, rest2) else some (6, rest)
        | [] => some (6, rest)
      else if dval c1 ≤ 5 then
        match rest with
        | c2 :: rest2 =>
          if isDig c2 then some (10 * dval c1 + dval c2, rest2) else some (dval c1, rest)
        | [] => some (dval c1, rest)
      else some (dval c1, rest)
    else none

/-- A literal character in the format. -/
def pLit (ch : Char) : List Char → Option (List Char)
  | c :: rest => if c = ch then some rest else none
  | [] => none

/-- Whitespace in the format: compiled to `\s+`. -/
def pWs : List Char → Option (List Char)
  | c :: rest => if isSpaceCh c then some (rest.dropWhile isSpaceCh) else none
  | [] => none

/-- The `datetime(...)` construction at the end of `strptime`. -/
def mkPyDateTime (y m d h mi s : Nat) : Option PyDateTime :=
  let dt : PyDateTime := ⟨y, m, d, h, mi, s⟩
  if validDT dt then some dt else none

/-- `datetime.strptime(s, "%Y/%m/%d %H:%M:%S")` (full match required). -/
def runFmt1 (l : List Char) : Option PyDateTime :=
  (pY4 l).bind fun (y, r1) =>
  (pLit '/' r1).bind fun r2 =>
  (pMonth r2).bind fun (m, r3) =>
  (pLit '/' r3).bind fun r4 =>
  (pDay r4).bind fun (d, r5) =>
  (pWs r5).bind fun r6 =>
  (pHour r6).bind fun (h, r7) =>
  (pLit ':' r7).bind fun r8 =>
  (pMin r8).bind fun (mi, r9) =>
  (pLit ':' r9).bind fun r10 =>
  (pSec r10).bind fun (s, r11) =>
  if r11 = [] then mkPyDateTime y m d h mi s else none

/-- `datetime.strptime(s, "%y/%m/%d %H:%M")`. -/
def runFmt2 (l : List Char) : Option PyDateTime :=
  (pY2 l).bind fun (y, r1) =>
  (pLit '/' r1).bind fun r2 =>
  (pMonth r2).bind fun (m, r3) =>
  (pLit '/' r3).bind fun r4 =>
  (pDay r4).bind fun (d, r5) =>
  (pWs r5).bind fun r6 =>
  (pHour r6).bind fun (h, r7) =>
  (pLit ':' r7).bind fun r8 =>
  (pMin r8).bind fun (mi, r9) =>
  if r9 = [] then mkPyDateTime y m d h mi 0 else none

/-- `datetime.strptime(s, "%m/%d %H:%M")`; the missing year defaults
to 1900 (so Feb 29 never parses under this format). -/
def runFmt3 (l : List Char) : Option PyDateTime :=
  (pMonth l).bind fun (m, r1) =>
  (pLit '/' r1).bind fun r2 =>
  (pDay r2).bind fun (d, r3) =>
  (pWs r3).bind fun r4 =>
  (pHour r4).bind fun (h, r5) =>
  (pLit ':' r5).bind fun r6 =>
  (pMin r6).bind fun (mi, r7) =>
  if r7 = [] then mkPyDateTime 1900 m d h mi 0 else none

/-- `datetime.strptime(s, "%Y/%m/%d %H:%M")`. -/
def runFmt4 (l : List Char) : Option PyDateTime :=
  (pY4 l).bind fun (y, r1) =>
  (pLit '/' r1).bind fun r2 =>
  (pMonth r2).bind fun (m, r3) =>
  (pLit '/' r3).bind fun r4 =>
  (pDay r4).bind fun (d, r5) =>
  (pWs r5).bind fun r6 =>
  (pHour r6).bind fun (h, r7) =>
  (pLit ':' r7).bind fun r8 =>
  (pMin r8).bind fun (mi, r9) =>
  if r9 = [] then mkPyDateTime y m d h mi 0 else none

inductive Fmt | f1 | f2 | f3 | f4
deriving DecidableEq

def runFmt : Fmt → List Char → Option PyDateTime
  | .f1 => runFmt1
  | .f2 => runFmt2
  | .f3 => runFmt3
  | .f4 => runFmt4

/-- The body of the per-format `try` block after a successful `strptime`
(main.py lines 99–108): substitute the reference year for the yearless
format, then decrement the year if the instant lies more than 31 days in
the future of the reference instant.  A `ValueError` from either `replace`
makes the whole attempt fail (caught by the surrounding `except`). -/
def adjustParsed (ref : PyDateTime) (yearless : Bool) (dt0 : PyDateTime) : Option PyDateTime :=
  (if yearless then replaceYear dt0 ref.year else some dt0).bind fun dt1 =>
  if toSecs ref + 31 * 86400 < toSecs dt1 then replaceYear dt1 (dt1.year - 1) else some dt1

def tryFormat (ref : PyDateTime) (f : Fmt) (l : List Char) : Option PyDateTime :=
  (runFmt f l).bind (adjustParsed ref (f = Fmt.f3))

/-- The cleaning prefix of `parse_post_date` (main.py lines 88–94):
`strip`, drop a trailing `(weekday)` token, `strip`, remove `配信`, `strip`. -/
def cleanedChars (raw : List Char) : List Char :=
  pyStrip (removeHaishin (pyStrip (stripWeekdayTok (pyStrip raw))))

/-- `parse_post_date(raw, today_jst)` (main.py lines 85–111): clean the
string, then try the four formats in order. -/
def parseChars (raw : List Char) (ref : PyDateTime) : Option PyDateTime :=
  let s := cleanedChars raw
  match tryFormat ref .f1 s with
  | some dt => some dt
  | none =>
    match tryFormat ref .f2 s with
    | some dt => some dt
    | none =>
      match tryFormat ref .f3 s with
      | some dt => some dt
      | none => tryFormat ref .f4 s

def parse_post_date (raw : String) (ref : PyDateTime) : Option PyDateTime :=
  parseChars raw.data ref

/-- Two-digit zero-padded rendering (strftime `%m`, `%d`, `%H`, `%M`, `%S`). -/
def pad2 (n : Nat) : List Char := [dchar (n / 10), dchar n]

/-- Four-digit rendering of the year (strftime `%Y`; the script only ever
formats contemporary four-digit years). -/
def pad4 (n : Nat) : List Char := [dchar (n / 1000), dchar (n / 100), dchar (n / 10), dchar n]

/-- `format_datetime` (main.py lines 81–83): `strftime("%Y/%m/%d %H:%M:%S")`. -/
def formatChars (dt : PyDateTime) : List Char :=
  pad4 dt.year ++ '/' :: (pad2 dt.month ++ '/' :: (pad2 dt.day ++ ' ' ::
    (pad2 dt.hour ++ ':' :: (pad2 dt.minute ++ ':' :: pad2 dt.second))))

def format_datetime (dt : PyDateTime) : String := ⟨formatChars dt⟩

/- ===== the spreadsheet row model ===== -/

/-- One data row of the Yahoo sheet (columns A–I: URL, title, posted-at,
source, body, comment count, company, category, sentiment). -/
structure NewsRow where
  url : String
  title : String
  postedAt : String
  source : String
  body : String
  commentCount : String
  company : String
  category : String
  sentiment : String
deriving DecidableEq, Repr

/-- The "body could not be fetched" sentinel (本文取得不可). -/
def sentinelBody : String := "本文取得不可"

/-- The "unavailable" sentinel used in the posted-at and source columns
(取得不可). -/
def sentinelUnavailable : String := "取得不可"

def isPrefixLC : List Char → List Char → Bool
  | [], _ => true
  | _ :: _, [] => false
  | a :: as, b :: bs => decide (a = b) && isPrefixLC as bs

/-- Python substring containment (`needle in hay`). -/
def containsSub (needle : List Char) : List Char → Bool
  | [] => isPrefixLC needle []
  | c :: t => isPrefixLC needle (c :: t) || containsSub needle t

/- ===== enrichment (fetch_details_and_update_sheet) ===== -/

/-- `body.strip() and body != "本文取得不可"` (main.py line 690). -/
def is_content_fetched (body : String) : Bool :=
  decide (pyStrip body.data ≠ []) && decide (body ≠ sentinelBody)

/-- `url.strip()` truthy and `url.startswith('http')` (main.py line 686,
negated skip condition). -/
def urlValid (url : String) : Bool :=
  decide (pyStrip url.data ≠ []) && isPrefixLC "http".data url.data

/-- `(now_jst - timedelta(days=3)).replace(hour=0, minute=0, second=0,
microsecond=0)` (main.py line 670), as seconds on the JST timeline. -/
def threeDaysAgoSecs (now : PyDateTime) : Int :=
  ((toSecs now : Int) / 86400 - 3) * 86400

/-- `post_date_dt and post_date_dt >= three_days_ago` (main.py lines 693–696). -/
def is_within_three_days (now : PyDateTime) (postRaw : String) : Bool :=
  match parse_post_date postRaw now with
  | none => false
  | some dt => decide (threeDaysAgoSecs now ≤ (toSecs dt : Int))

/-- Result triple of `fetch_article_body_and_comments` as consumed by the
enrichment loop: body text (or the sentinel), comment count (−1 when no
count was found), optionally a raw date string extracted from the lead
paragraphs. -/
structure FetchResult where
  body : String
  commentCount : Int
  extractedDate : Option String
deriving DecidableEq, Repr

/-- One iteration of the row loop of `fetch_details_and_update_sheet`
(main.py lines 672–785): decide whether a detail fetch is needed and, if so,
merge the fetch result `f` into the row.  The returned Bool records whether
`fetch_article_body_and_comments` was invoked; when it is false the row is
returned unchanged and `f` is never consulted.  The source's
`needs_update_to_sheet` flag only suppresses the write when every new value
equals the stored one, so it does not affect the resulting row state and is
not tracked. -/
def enrichRow (now : PyDateTime) (r : NewsRow) (f : FetchResult) : NewsRow × Bool :=
  if !urlValid r.url then (r, false)
  else
    let contentFetched := is_content_fetched r.body
    let withinThree := is_within_three_days now r.postedAt
    if contentFetched && !withinThree then (r, false)   -- full skip (line 702)
    else
      let isCommentOnly := contentFetched && withinThree
      let needsFull := !contentFetched
      -- needs_detail_fetch = isCommentOnly || needsFull holds on every
      -- remaining path, so the fetch is always performed here (line 726)
      let newBody :=                                    -- lines 735–747
        if needsFull then
          (if f.body ≠ sentinelBody then f.body else sentinelBody)
        else if isCommentOnly && decide (f.body = sentinelBody) then sentinelBody
        else r.body
      let extractedTruthy :=                            -- `and extracted_date`
        match f.extractedDate with
        | some ed => decide (ed ≠ "")
        | none => false
      let newPost :=                                    -- lines 750–762
        if needsFull &&
            (containsSub sentinelUnavailable.data r.postedAt.data ||
              decide (pyStrip r.postedAt.data = [])) && extractedTruthy then
          match f.extractedDate with
          | some ed =>
            (match parse_post_date ed now with
             | some dt => format_datetime dt
             | none => (⟨pyStrip (stripWeekdayTok ed.data)⟩ : String))
          | none => r.postedAt
        else r.postedAt
      let newComment :=                                 -- lines 765–770
        if decide (f.commentCount ≠ -1) && (needsFull || isCommentOnly) then
          toString f.commentCount
        else r.commentCount
      ({ r with postedAt := newPost, body := newBody, commentCount := newComment }, true)

/- ===== analysis (analyze_with_gemini / analyze_with_gemini_and_update_sheet) ===== -/

def MAX_RETRIES : Nat := 3

/-- Outcome of one Gemini API attempt: the quota error (`ResourceExhausted`),
any other exception, or a successful structured response. -/
inductive GeminiAttempt where
  | quota
  | err
  | ok (company category sentiment : String)
deriving DecidableEq, Repr

/-- Result of `analyze_with_gemini`: either a label triple, or the process
abort (`sys.exit(1)`) raised on a quota error. -/
inductive AnalyzeResult where
  | labels (company category sentiment : String)
  | abortQuota
deriving DecidableEq, Repr

/-- The retry loop of `analyze_with_gemini` (main.py lines 231–275), at
attempt number `i`: a quota error aborts the process immediately (line 262),
a success returns its labels, any other error retries while attempts remain
and otherwise returns the ERROR triple (lines 266–273).  `fuel` counts the
iterations remaining in `range(MAX_RETRIES)`; the fuel-exhausted arm is the
`return "ERROR", ...` after the loop (line 275, unreachable for positive
fuel since the loop always returns on its last iteration). -/
def analyzeLoopF (att : Nat → GeminiAttempt) : Nat → Nat → AnalyzeResult
  | _, 0 => .labels "ERROR" "ERROR" "ERROR"
  | i, fuel + 1 =>
    match att i with
    | .quota => .abortQuota
    | .ok a b c => .labels a b c
    | .err =>
      if i < MAX_RETRIES - 1 then analyzeLoopF att (i + 1) fuel
      else .labels "ERROR" "ERROR" "ERROR"

def analyzeLoop (att : Nat → GeminiAttempt) : AnalyzeResult :=
  analyzeLoopF att 0 MAX_RETRIES

/-- `analyze_with_gemini` (main.py lines 217–275); the Gemini client and the
prompt template are modelled as availability flags and the per-attempt API
outcome as the oracle `att`. -/
def analyze_with_gemini (clientOk promptOk : Bool) (text : String)
    (att : Nat → GeminiAttempt) : AnalyzeResult :=
  if !clientOk then .labels "N/A" "N/A" "N/A"
  else if pyStrip text.data = [] then .labels "N/A" "N/A" "N/A"
  else if !promptOk then .labels "ERROR(Prompt Missing)" "ERROR" "ERROR"
  else analyzeLoop att

/-- `needs_analysis` (main.py line 826): some label column is blank. -/
def needsAnalysis (r : NewsRow) : Bool :=
  decide (pyStrip r.company.data = []) || decide (pyStrip r.category.data = []) ||
    decide (pyStrip r.sentiment.data = [])

/-- Outcome of the analysis stage: the final row states, plus the exit code
when the run was aborted mid-stage. -/
inductive RunOutcome where
  | completed (rows : List NewsRow)
  | aborted (rows : List NewsRow) (exitCode : Nat)
deriving DecidableEq, Repr

def consOutcome (r : NewsRow) : RunOutcome → RunOutcome
  | .completed rs => .completed (r :: rs)
  | .aborted rs c => .aborted (r :: rs) c

def appendRowsOutcome (pre : List NewsRow) : RunOutcome → RunOutcome
  | .completed rs => .completed (pre ++ rs)
  | .aborted rs c => .aborted (pre ++ rs) c

/-- What the analysis loop does to one row: write it back in some state, or
abort the whole run (the quota `sys.exit(1)`). -/
inductive RowStep where
  | write (r : NewsRow)
  | abort
deriving DecidableEq, Repr

/-- The per-row branching of `analyze_with_gemini_and_update_sheet` (main.py
lines 812–857): rows with all labels present are skipped unchanged; rows
without a body get the fixed no-body triple; rows without a URL are skipped;
otherwise the Gemini call decides the labels, and its quota abort kills the
run before anything is written for this row. -/
def analyzeRowStep (clientOk promptOk : Bool) (attRow : Nat → GeminiAttempt)
    (r : NewsRow) : RowStep :=
  if !needsAnalysis r then .write r
  else if decide (pyStrip r.body.data = []) || decide (r.body = sentinelBody) then
    .write { r with company := "N/A(No Body)", category := "N/A", sentiment := "N/A" }
  else if decide (pyStrip r.url.data = []) then .write r
  else
    match analyze_with_gemini clientOk promptOk r.body attRow with
    | .abortQuota => .abort
    | .labels a b c => .write { r with company := a, category := b, sentiment := c }

/-- The row loop of `analyze_with_gemini_and_update_sheet` (main.py lines
812–858) from row index `i` on; `att j` is the attempt oracle for the row at
index `j`.  A quota abort terminates the run before the current row's labels
are written (exit code 1); the rows already processed keep the labels written
for them, and the rows not yet reached stay as they were. -/
def analyzeSheetFrom (clientOk promptOk : Bool) (att : Nat → Nat → GeminiAttempt) :
    Nat → List NewsRow → RunOutcome
  | _, [] => .completed []
  | i, r :: rest =>
    match analyzeRowStep clientOk promptOk (att i) r with
    | .abort => .aborted (r :: rest) 1
    | .write rNew => consOutcome rNew (analyzeSheetFrom clientOk promptOk att (i + 1) rest)

/- ===== discovery / deduplication (write_news_list_to_source) ===== -/

/-- A candidate article scraped from the search listing (columns A–D). -/
structure Article where
  url : String
  title : String
  postedAt : String
  source : String
deriving DecidableEq, Repr

/-- The sheet row appended for a new article (main.py line 509). -/
def articleRow (a : Article) : List String := [a.url, a.title, a.postedAt, a.source]

/-- `existing_urls` (main.py line 506): first cells of the existing data rows
that start with "http". -/
def existingUrls (rows : List (List String)) : List String :=
  (rows.filter (fun row => decide (0 < row.length) &&
      isPrefixLC "http".data (row.headD "").data)).map (fun row => row.headD "")

/-- `write_news_list_to_source` (main.py lines 500–516) acting on the data
rows of the sheet (header row excluded): append exactly those candidates
whose URL is not among the existing URLs. -/
def write_news_list (rows : List (List String)) (articles : List Article) :
    List (List String) :=
  rows ++ (articles.filter
    (fun a => !(existingUrls rows).contains a.url)).map articleRow

/-- Number of data rows whose URL cell is `u`. -/
def countUrl (rows : List (List String)) (u : String) : Nat :=
  (rows.filter (fun row => decide (row.headD "" = u))).length

/- ===== body fetch (request_with_retry / fetch_article_body_and_comments) ===== -/

/-- Abstraction of the parsed HTML of one article page: the stripped
paragraph texts, the number on the comment button (if one was found), and
the lead-paragraph date match (if any).  The HTML/regex extraction itself is
outside the control flow verified here. -/
structure PageContent where
  paragraphs : List String
  commentMatch : Option Nat
  dateMatch : Option String
deriving DecidableEq, Repr

inductive HttpOutcome where
  | notFound
  | failure
  | success (page : PageContent)
deriving DecidableEq, Repr

/-- Declared maximum page count (main.py line 55); the pagination loop that
used it was removed, so it is no longer consulted by the fetch. -/
def MAX_PAGES : Nat := 10

/-- The attempt loop of `request_with_retry` (main.py lines 193–214) driven
by the per-attempt outcome oracle: returns the response (if any), the list of
base backoff waits (2^attempt seconds; the random jitter is omitted) and the
number of attempts made.  A 404 returns None immediately without retrying;
other errors retry until `max_retries` attempts have been made.  `fuel`
counts the iterations remaining in `range(max_retries)`; the fuel-exhausted
arm is the `return None` after the loop (line 214, unreachable for positive
fuel since the loop always returns on its last iteration). -/
def requestLoopF (out : Nat → HttpOutcome) (maxRetries : Nat) :
    Nat → Nat → List Nat → Option PageContent × List Nat × Nat
  | attempt, 0, waits => (none, waits, attempt)
  | attempt, fuel + 1, waits =>
    match out attempt with
    | .notFound => (none, waits, attempt + 1)
    | .success p => (some p, waits, attempt + 1)
    | .failure =>
      if attempt < maxRetries - 1 then
        requestLoopF out maxRetries (attempt + 1) fuel (waits ++ [2 ^ attempt])
      else (none, waits, attempt + 1)

def request_with_retry (out : Nat → HttpOutcome) : Option PageContent × List Nat × Nat :=
  requestLoopF out 3 0 3 []

def isHexLower (c : Char) : Bool :=
  (decide ('0' ≤ c) && decide (c ≤ '9')) || (decide ('a' ≤ c) && decide (c ≤ 'f'))

/-- `re.search(r"/articles/([a-f0-9]+)", url)` succeeds: some position starts
with "/articles/" followed by at least one lowercase-hex character. -/
def hasArticleId : List Char → Bool
  | [] => false
  | c :: t =>
    (isPrefixLC "/articles/".data (c :: t) &&
      (match (c :: t).drop 10 with
       | c2 :: _ => isHexLower c2
       | [] => false)) || hasArticleId t

/-- `"\n".join(...)` over the non-empty paragraph texts. -/
def joinParagraphs (ps : List String) : String :=
  String.intercalate "\n" (ps.filter (fun p => decide (p ≠ "")))

/-- Trace of one `fetch_article_body_and_comments` call: the URL of every
HTTP request made, and the returned (body, comment count, extracted date). -/
structure FetchTrace where
  requested : List String
  body : String
  commentCount : Int
  extractedDate : Option String
deriving DecidableEq, Repr

/-- `fetch_article_body_and_comments` (main.py lines 393–461).  The
multi-page loop of earlier revisions was removed: only the base URL (query
string stripped) is ever requested, every retry hitting that same URL.
`net url attempt` is the network oracle. -/
def fetch_article_body_and_comments (net : String → Nat → HttpOutcome) (url : String) :
    FetchTrace :=
  if !hasArticleId url.data then ⟨[], sentinelBody, -1, none⟩
  else
    let current : String := ⟨url.data.takeWhile (fun c => !(decide (c = '?')))⟩
    match request_with_retry (net current) with
    | (none, _waits, attempts) => ⟨List.replicate attempts current, sentinelBody, -1, none⟩
    | (some page, _waits, attempts) =>
      let bodyText := joinParagraphs page.paragraphs
      let commentCount : Int :=
        match page.commentMatch with
        | some n => (n : Int)
        | none => -1
      let extracted := if bodyText ≠ "" then page.dateMatch else none
      ⟨List.replicate attempts current,
        if bodyText ≠ "" then bodyText else sentinelBody, commentCount, extracted⟩

/- ===== startup (load_keywords / main) ===== -/

/-- `load_keywords` (main.py lines 136–150): `none` models a missing file
(the FileNotFoundError handler returns []); a present file yields its lines,
of which the stripped non-comment non-blank ones are kept.  When none remain
the ValueError handler also returns []. -/
def load_keywords (file : Option (List String)) : List String :=
  match file with
  | none => []
  | some lines =>
    (lines.filter (fun l => decide (pyStrip l.data ≠ []) &&
        !isPrefixLC "#".data l.data)).map (fun l => (⟨pyStrip l.data⟩ : String))

inductive Stage where
  | discover | append | details | sortStage | analyze
deriving DecidableEq, Repr

/-- `main()` (main.py lines 865–895) with the stage bodies abstracted: the
run's work is recorded as the list of stages entered; `credsOk` models
`build_gspread_client` succeeding and `quotaAbort` whether the analysis stage
hits the fatal quota path (its `sys.exit(1)`).  Returns (exit code, stages
performed).  An empty keyword list exits 0 before any stage (line 870);
a credentials failure exits 1 before any stage (line 876). -/
def mainRun (keywordFile : Option (List String)) (credsOk : Bool) (quotaAbort : Bool) :
    Nat × List Stage :=
  let keywords := load_keywords keywordFile
  if keywords = [] then (0, [])
  else if !credsOk then (1, [])
  else if quotaAbort then (1, [.discover, .append, .details, .sortStage, .analyze])
  else (0, [.discover, .append, .details, .sortStage, .analyze])

/- ===== basic facts about digit characters and stripping ===== -/

lemma dchar_spec (n : Nat) :
    dval (dchar n) = n % 10 ∧ isDig (dchar n) = true ∧ isSpaceCh (dchar n) = false ∧
    dchar n ≠ ')' ∧ dchar n ≠ '配' ∧ dchar n ≠ '(' := by
  have h : n % 10 = 0 ∨ n % 10 = 1 ∨ n % 10 = 2 ∨ n % 10 = 3 ∨ n % 10 = 4 ∨
      n % 10 = 5 ∨ n % 10 = 6 ∨ n % 10 = 7 ∨ n % 10 = 8 ∨ n % 10 = 9 := by omega
  unfold dchar dval
  rcases h with h | h | h | h | h | h | h | h | h | h <;> rw [h] <;>
    exact ⟨by decide, by decide, by decide, by decide, by decide, by decide⟩

lemma dval_dchar (n : Nat) : dval (dchar n) = n % 10 := (dchar_spec n).1

lemma isDig_dchar (n : Nat) : isDig (dchar n) = true := (dchar_spec n).2.1

lemma isSpaceCh_dchar (n : Nat) : isSpaceCh (dchar n) = false := (dchar_spec n).2.2.1

lemma dropWhile_idem (p : Char → Bool) (l : List Char) :
    List.dropWhile p (List.dropWhile p l) = List.dropWhile p l := by
  induction l with
  | nil => rfl
  | cons c l ih => by_cases h : p c <;> simp [List.dropWhile_cons, h, ih]

lemma pyLStrip_cons_of (c : Char) (l : List Char) (h : isSpaceCh c = false) :
    pyLStrip (c :: l) = c :: l := by
  simp [pyLStrip, List.dropWhile_cons, h]

lemma pyLStrip_idem (l : List Char) : pyLStrip (pyLStrip l) = pyLStrip l :=
  dropWhile_idem isSpaceCh l

lemma pyRStrip_idem (l : List Char) : pyRStrip (pyRStrip l) = pyRStrip l := by
  unfold pyRStrip
  rw [List.reverse_reverse, dropWhile_idem]

lemma pyRStrip_append_last (l : List Char) (c : Char) (h : isSpaceCh c = false) :
    pyRStrip (l ++ [c]) = l ++ [c] := by
  unfold pyRStrip
  rw [List.reverse_append]
  simp [List.dropWhile_cons, h]

lemma pyLStrip_append (s t : List Char) (c : Char) (h : isSpaceCh c = false) :
    pyLStrip (s ++ c :: t) = pyLStrip s ++ c :: t := by
  induction s with
  | nil => simp [pyLStrip, List.dropWhile_cons, h]
  | cons a s ih =>
    by_cases ha : isSpaceCh a
    · simp only [List.cons_append, pyLStrip, List.dropWhile_cons, ha, if_pos]
      simpa [pyLStrip] using ih
    · simp [pyLStrip, List.dropWhile_cons, ha]

lemma pyLStrip_pyRStrip_pyLStrip (l : List Char) :
    pyLStrip (pyRStrip (pyLStrip l)) = pyRStrip (pyLStrip l) := by
  induction l with
  | nil => rfl
  | cons c l ih =>
    by_cases hc : isSpaceCh c
    · have h1 : pyLStrip (c :: l) = pyLStrip l := by
        simp [pyLStrip, List.dropWhile_cons, hc]
      rw [h1]; exact ih
    · rw [pyLStrip_cons_of c l (by simpa using hc)]
      unfold pyRStrip
      rw [List.reverse_cons, List.dropWhile_append]
      by_cases he : (l.reverse.dropWhile isSpaceCh).isEmpty
      · simp only [he, if_pos]
        simp [List.dropWhile_cons, hc, pyLStrip]
      · simp only [he, if_neg, Bool.false_eq_true, not_false_iff]
        rw [List.reverse_append]
        exact pyLStrip_cons_of _ _ (by simpa using hc)

lemma pyStrip_idem (l : List Char) : pyStrip (pyStrip l) = pyStrip l := by
  unfold pyStrip
  rw [pyLStrip_pyRStrip_pyLStrip, pyRStrip_idem]

lemma pyStrip_pyLStrip (l : List Char) : pyStrip (pyLStrip l) = pyStrip l := by
  unfold pyStrip
  rw [pyLStrip_idem]

/- ===== the cleaning stage leaves formatted output unchanged ===== -/

lemma formatChars_explicit (dt : PyDateTime) :
    formatChars dt = dchar (dt.year / 1000) :: dchar (dt.year / 100) :: dchar (dt.year / 10) ::
      dchar dt.year :: '/' :: dchar (dt.month / 10) :: dchar dt.month :: '/' ::
      dchar (dt.day / 10) :: dchar dt.day :: ' ' :: dchar (dt.hour / 10) :: dchar dt.hour ::
      ':' :: dchar (dt.minute / 10) :: dchar dt.minute :: ':' :: dchar (dt.second / 10) ::
      [dchar dt.second] := by
  simp [formatChars, pad4, pad2]

lemma mem_formatChars (dt : PyDateTime) (c : Char) (hc : c ∈ formatChars dt) :
    c = '/' ∨ c = ':' ∨ c = ' ' ∨ ∃ n, c = dchar n := by
  rw [formatChars_explicit] at hc
  simp only [List.mem_cons, List.not_mem_nil, or_false] at hc
  rcases hc with h | h | h | h | h | h | h | h | h | h | h | h | h | h | h | h | h | h | h <;>
    subst h <;>
    first
    | exact Or.inl rfl
    | exact Or.inr (Or.inl rfl)
    | exact Or.inr (Or.inr (Or.inl rfl))
    | exact Or.inr (Or.inr (Or.inr ⟨_, rfl⟩))

lemma removeHaishin_eq (l : List Char) (h : '配' ∉ l) : removeHaishin l = l := by
  induction l with
  | nil => rfl
  | cons c rest ih =>
    have hc : ¬(c = '配') := fun he => h (he ▸ List.mem_cons_self c rest)
    have hrest : '配' ∉ rest := fun hm => h (List.mem_cons_of_mem c hm)
    cases rest with
    | nil => rfl
    | cons c2 r2 =>
      rw [removeHaishin]
      rw [if_neg (by simp [hc])]
      rw [ih hrest]

lemma cleaned_format (dt : PyDateTime) : cleanedChars (formatChars dt) = formatChars dt := by
  have hsnoc : formatChars dt =
      (dchar (dt.year / 1000) :: dchar (dt.year / 100) :: dchar (dt.year / 10) ::
        dchar dt.year :: '/' :: dchar (dt.month / 10) :: dchar dt.month :: '/' ::
        dchar (dt.day / 10) :: dchar dt.day :: ' ' :: dchar (dt.hour / 10) :: dchar dt.hour ::
        ':' :: dchar (dt.minute / 10) :: dchar dt.minute :: ':' :: [dchar (dt.second / 10)]) ++
      [dchar dt.second] := by
    rw [formatChars_explicit]; rfl
  have hl : pyLStrip (formatChars dt) = formatChars dt := by
    rw [formatChars_explicit]
    exact pyLStrip_cons_of _ _ (isSpaceCh_dchar _)
  have hr : pyRStrip (formatChars dt) = formatChars dt := by
    rw [hsnoc]
    exact pyRStrip_append_last _ _ (isSpaceCh_dchar _)
  have hstrip : pyStrip (formatChars dt) = formatChars dt := by
    unfold pyStrip; rw [hl, hr]
  have hweek : stripWeekdayTok (formatChars dt) = formatChars dt := by
    unfold stripWeekdayTok
    split
    · next w rest heq =>
      exfalso
      have : (formatChars dt).reverse.head? = some ')' := by rw [heq]; rfl
      rw [hsnoc] at this
      rw [List.reverse_append] at this
      simp at this
      exact (dchar_spec dt.second).2.2.2.1 this
    · rfl
  have hhai : removeHaishin (formatChars dt) = formatChars dt := by
    refine removeHaishin_eq _ (fun hm => ?_)
    rcases mem_formatChars dt '配' hm with h | h | h | ⟨n, h⟩ <;>
      first
      | exact absurd h (by decide)
      | exact (dchar_spec n).2.2.2.2.1 h.symm
  unfold cleanedChars
  rw [hstrip, hweek, hstrip, hhai, hstrip]

/- ===== strptime round-trip on formatted output ===== -/

lemma pY4_pad4 (y : Nat) (r : List Char) (h1 : 1000 ≤ y) (h2 : y ≤ 9999) :
    pY4 (pad4 y ++ r) = some (y, r) := by
  have hv : 1000 * (y / 1000 % 10) + 100 * (y / 100 % 10) + 10 * (y / 10 % 10) + y % 10 = y := by
    omega
  show pY4 (dchar (y / 1000) :: dchar (y / 100) :: dchar (y / 10) :: dchar y :: r) = some (y, r)
  simp [pY4, isDig_dchar, dval_dchar, hv]

lemma pMonth_pad2 (m : Nat) (r : List Char) (h1 : 1 ≤ m) (h2 : m ≤ 12) :
    pMonth (pad2 m ++ r) = some (m, r) := by
  interval_cases m <;> rfl

lemma pDay_pad2 (d : Nat) (r : List Char) (h1 : 1 ≤ d) (h2 : d ≤ 31) :
    pDay (pad2 d ++ r) = some (d, r) := by
  interval_cases d <;> rfl

lemma pHour_pad2 (h : Nat) (r : List Char) (h2 : h ≤ 23) :
    pHour (pad2 h ++ r) = some (h, r) := by
  interval_cases h <;> rfl

lemma pMin_pad2 (v : Nat) (r : List Char) (h2 : v ≤ 59) :
    pMin (pad2 v ++ r) = some (v, r) := by
  interval_cases v <;> rfl

lemma pSec_pad2 (v : Nat) (r : List Char) (h2 : v ≤ 59) :
    pSec (pad2 v ++ r) = some (v, r) := by
  interval_cases v <;> rfl

lemma pLit_cons (ch : Char) (r : List Char) : pLit ch (ch :: r) = some r := by
  simp [pLit]

lemma pWs_format (n : Nat) (rest : List Char) :
    pWs (' ' :: dchar n :: rest) = some (dchar n :: rest) := by
  rw [pWs, if_pos (by decide : isSpaceCh ' ' = true), List.dropWhile_cons,
    if_neg (by simp [isSpaceCh_dchar])]

lemma daysInMonth_le_31 (y m : Nat) : daysInMonth y m ≤ 31 := by
  unfold daysInMonth
  split_ifs <;> omega

lemma validDT_fields (dt : PyDateTime) (hv : validDT dt = true) :
    1 ≤ dt.year ∧ dt.year ≤ 9999 ∧ 1 ≤ dt.month ∧ dt.month ≤ 12 ∧ 1 ≤ dt.day ∧
    dt.day ≤ daysInMonth dt.year dt.month ∧ dt.hour ≤ 23 ∧ dt.minute ≤ 59 ∧ dt.second ≤ 59 := by
  simp only [validDT, Bool.and_eq_true, decide_eq_true_eq] at hv
  omega

lemma runFmt1_format (dt : PyDateTime) (hv : validDT dt = true) (hy : 1000 ≤ dt.year) :
    runFmt1 (formatChars dt) = some dt := by
  obtain ⟨b1, b2, b3, b4, b5, b6, b7, b8, b9⟩ := validDT_fields dt hv
  rw [formatChars, runFmt1]
  rw [pY4_pad4 _ _ hy b2, Option.some_bind]
  dsimp only
  rw [pLit_cons, Option.some_bind]
  rw [pMonth_pad2 _ _ b3 b4, Option.some_bind]
  dsimp only
  rw [pLit_cons, Option.some_bind]
  rw [pDay_pad2 _ _ b5 (by have := daysInMonth_le_31 dt.year dt.month; omega), Option.some_bind]
  dsimp only
  have hpw : ' ' :: (pad2 dt.hour ++ ':' :: (pad2 dt.minute ++ ':' :: pad2 dt.second)) =
      ' ' :: dchar (dt.hour / 10) :: (dchar dt.hour ::
        (':' :: (pad2 dt.minute ++ ':' :: pad2 dt.second))) := by
    simp [pad2]
  rw [hpw, pWs_format, Option.some_bind]
  show (pHour (pad2 dt.hour ++ ':' :: (pad2 dt.minute ++ ':' :: pad2 dt.second))).bind _ = some dt
  rw [pHour_pad2 _ _ b7, Option.some_bind]
  dsimp only
  rw [pLit_cons, Option.some_bind]
  rw [pMin_pad2 _ _ b8, Option.some_bind]
  dsimp only
  rw [pLit_cons, Option.some_bind]
  have hps : pSec (pad2 dt.second) = some (dt.second, []) := by
    have := pSec_pad2 dt.second [] b9
    simpa using this
  rw [hps, Option.some_bind]
  dsimp only
  rw [if_pos rfl]
  rw [mkPyDateTime]
  simp only [hv, if_pos]

/- ===== effect of a trailing weekday token on the cleaning stage ===== -/

lemma stripWeekdayTok_append (l : List Char) (w : Char) (hw : isWeekdayCh w = true) :
    stripWeekdayTok (l ++ ['(', w, ')']) = l := by
  have hrev : (l ++ ['(', w, ')']).reverse = ')' :: w :: '(' :: l.reverse := by simp
  unfold stripWeekdayTok
  split
  · next w' rest heq =>
    rw [hrev] at heq
    injection heq with e1 e2
    injection e2 with e3 e4
    injection e4 with e5 e6
    subst e3
    subst e6
    rw [if_pos hw, List.reverse_reverse]
  · next hne =>
    exact absurd hrev (hne w l.reverse)

lemma cleaned_append_weekday (s : List Char) (w : Char) (hw : isWeekdayCh w = true)
    (hs : stripWeekdayTok (pyStrip s) = pyStrip s) :
    cleanedChars (s ++ ['(', w, ')']) = cleanedChars s := by
  have h1 : pyStrip (s ++ ['(', w, ')']) = pyLStrip s ++ ['(', w, ')'] := by
    unfold pyStrip
    rw [pyLStrip_append s [w, ')'] '(' (by decide)]
    have : pyLStrip s ++ '(' :: [w, ')'] = (pyLStrip s ++ ['(', w]) ++ [')'] := by simp
    rw [this, pyRStrip_append_last _ _ (by decide)]
  have h2 : stripWeekdayTok (pyLStrip s ++ ['(', w, ')']) = pyLStrip s :=
    stripWeekdayTok_append _ w hw
  unfold cleanedChars
  rw [h1, h2, pyStrip_pyLStrip, hs, pyStrip_idem]

/- ===== facts about the yearless format ===== -/

lemma daysInMonth_1900_le (y m : Nat) : daysInMonth 1900 m ≤ daysInMonth y m := by
  simp only [daysInMonth]
  by_cases hm : m = 2
  · rw [if_pos hm, if_pos hm, if_neg (by decide : ¬(isLeap 1900 = true))]
    split_ifs <;> omega
  · rw [if_neg hm, if_neg hm]

lemma runFmt3_some (l : List Char) (dt : PyDateTime) (h : runFmt3 l = some dt) :
    dt.year = 1900 ∧ validDT dt = true := by
  unfold runFmt3 at h
  simp only [Option.bind_eq_some] at h
  obtain ⟨⟨m, r1⟩, -, r2, -, ⟨d, r3⟩, -, r4, -, ⟨hh, r5⟩, -, r6, -, ⟨mi, r7⟩, -, h⟩ := h
  dsimp only at h
  split at h
  · simp only [mkPyDateTime] at h
    split at h
    · next hv =>
      obtain rfl : (⟨1900, m, d, hh, mi, 0⟩ : PyDateTime) = dt := by injection h
      exact ⟨rfl, hv⟩
    · exact absurd h (by simp)
  · exact absurd h (by simp)

/- ===== claim theorems: the date normalizer (C4, C5, C6) ===== -/

/-- C4: for a raw date string whose cleaned form is matched by the yearless
pattern `%m/%d %H:%M` (the two earlier patterns having failed), `parse_post_date`
substitutes the reference instant's year, and if the instant so obtained lies
more than 31 days in the future of the reference instant the parsed year is
the reference year minus one. -/
theorem C4_yearless_substitutes_reference_year (raw : List Char) (ref dt0 : PyDateTime)
    (href1 : 2 ≤ ref.year) (href2 : ref.year ≤ 9999)
    (h1 : tryFormat ref .f1 (cleanedChars raw) = none)
    (h2 : tryFormat ref .f2 (cleanedChars raw) = none)
    (h3 : runFmt3 (cleanedChars raw) = some dt0) :
    parseChars raw ref =
      some (if toSecs ref + 31 * 86400 < toSecs { dt0 with year := ref.year }
            then { dt0 with year := ref.year - 1 }
            else { dt0 with year := ref.year }) := by
  obtain ⟨hy1900, hvalid⟩ := runFmt3_some _ _ h3
  obtain ⟨-, -, -, -, -, hday, -, -, -⟩ := validDT_fields dt0 hvalid
  rw [hy1900] at hday
  have hdm : ∀ y, dt0.day ≤ daysInMonth y dt0.month :=
    fun y => le_trans hday (daysInMonth_1900_le y dt0.month)
  have hry : replaceYear dt0 ref.year = some { dt0 with year := ref.year } := by
    unfold replaceYear
    rw [if_pos]
    simp only [Bool.and_eq_true, decide_eq_true_eq]
    exact ⟨⟨by omega, by omega⟩, hdm ref.year⟩
  have hry2 : replaceYear { dt0 with year := ref.year } (ref.year - 1) =
      some { dt0 with year := ref.year - 1 } := by
    unfold replaceYear
    rw [if_pos]
    simp only [Bool.and_eq_true, decide_eq_true_eq]
    exact ⟨⟨by omega, by omega⟩, hdm (ref.year - 1)⟩
  have hadj : adjustParsed ref true dt0 =
      some (if toSecs ref + 31 * 86400 < toSecs { dt0 with year := ref.year }
            then { dt0 with year := ref.year - 1 }
            else { dt0 with year := ref.year }) := by
    unfold adjustParsed
    rw [if_pos rfl, hry, Option.some_bind]
    dsimp only
    by_cases hfut : toSecs ref + 31 * 86400 < toSecs { dt0 with year := ref.year }
    · rw [if_pos hfut, if_pos hfut, hry2]
    · rw [if_neg hfut, if_neg hfut]
  have htf : tryFormat ref .f3 (cleanedChars raw) = adjustParsed ref true dt0 := by
    unfold tryFormat
    rw [show runFmt .f3 = runFmt3 from rfl, h3, Option.some_bind]
    rfl
  simp only [parseChars, h1, h2, htf, hadj]

/-- C4 witness: "12/25 10:00" parsed against a 2025-10-12 reference instant
gets year 2024 (more than 31 days in the future against 2025). -/
theorem C4_yearless_substitutes_reference_year_witness :
    parseChars "12/25 10:00".data ⟨2025, 10, 12, 0, 0, 0⟩ =
      some ⟨2024, 12, 25, 10, 0, 0⟩ := by
  have h := C4_yearless_substitutes_reference_year "12/25 10:00".data
    ⟨2025, 10, 12, 0, 0, 0⟩ ⟨1900, 12, 25, 10, 0, 0⟩
    (by decide) (by decide) (by decide) (by decide) (by decide)
  rw [h]
  decide

/-- C5 counterexample: formatting the instant 2025-12-01 00:00:00 and
re-parsing the produced string against reference instant 2025-10-12 00:00:00
yields 2024-12-01 00:00:00 — the year-decrement branch of the parser fires on
fully-dated strings more than 31 days in the future, so the format/parse
round trip is not lossless for every instant. -/
theorem C5_roundtrip_counterexample :
    parse_post_date (format_datetime ⟨2025, 12, 1, 0, 0, 0⟩) ⟨2025, 10, 12, 0, 0, 0⟩ =
      some ⟨2024, 12, 1, 0, 0, 0⟩ ∧
    parse_post_date (format_datetime ⟨2025, 12, 1, 0, 0, 0⟩) ⟨2025, 10, 12, 0, 0, 0⟩ ≠
      some ⟨2025, 12, 1, 0, 0, 0⟩ := by
  constructor
  · decide
  · decide

/-- C5 (amended): the format/parse round trip is lossless for every valid
four-digit-year instant that does not lie more than 31 days in the future of
the reference instant (which covers every string the component itself writes
during a run); beyond that window the parser decrements the year. -/
theorem C5_roundtrip_within_window (dt ref : PyDateTime)
    (hv : validDT dt = true) (hy : 1000 ≤ dt.year)
    (hfut : toSecs dt ≤ toSecs ref + 31 * 86400) :
    parse_post_date (format_datetime dt) ref = some dt := by
  show parseChars (formatChars dt) ref = some dt
  have hadj : adjustParsed ref false dt = some dt := by
    unfold adjustParsed
    rw [if_neg (by decide : ¬(false = true)), Option.some_bind,
      if_neg (by omega : ¬(toSecs ref + 31 * 86400 < toSecs dt))]
  have htf : tryFormat ref .f1 (formatChars dt) = some dt := by
    unfold tryFormat
    rw [show runFmt .f1 = runFmt1 from rfl, runFmt1_format dt hv hy, Option.some_bind]
    exact hadj
  simp only [parseChars, cleaned_format, htf]

/-- C5 witness: a concrete instant four days before the reference round-trips
unchanged. -/
theorem C5_roundtrip_within_window_witness :
    parse_post_date (format_datetime ⟨2025, 10, 8, 10, 0, 28⟩) ⟨2025, 10, 12, 0, 0, 0⟩ =
      some ⟨2025, 10, 8, 10, 0, 28⟩ :=
  C5_roundtrip_within_window ⟨2025, 10, 8, 10, 0, 28⟩ ⟨2025, 10, 12, 0, 0, 0⟩
    (by decide) (by decide) (by decide)

/-- C6 counterexample: for the raw string s = "10/20 15:30(火)" (which itself
ends in a weekday token) parsing s succeeds, but parsing s ++ "(月)" fails:
the cleaner strips only one trailing token, so the claim's equation fails for
this s and w = 月. -/
theorem C6_weekday_counterexample :
    parse_post_date "10/20 15:30(火)(月)" ⟨2025, 10, 12, 0, 0, 0⟩ = none ∧
    parse_post_date "10/20 15:30(火)" ⟨2025, 10, 12, 0, 0, 0⟩ =
      some ⟨2025, 10, 20, 15, 30, 0⟩ := by
  constructor
  · decide
  · decide

/-- C6 (amended): appending a trailing parenthesized weekday token to a raw
date string never changes the parse result, provided the whitespace-stripped
string does not itself already end in such a token (the cleaning step removes
at most one trailing token). -/
theorem C6_weekday_token_ignored (s : String) (w : Char) (ref : PyDateTime)
    (hw : isWeekdayCh w = true)
    (hs : stripWeekdayTok (pyStrip s.data) = pyStrip s.data) :
    parse_post_date (s ++ ⟨['(', w, ')']⟩) ref = parse_post_date s ref := by
  unfold parse_post_date
  rw [String.data_append]
  show parseChars (s.data ++ ['(', w, ')']) ref = parseChars s.data ref
  simp only [parseChars, cleaned_append_weekday s.data w hw hs]

/-- C6 witness: "10/20 15:30" with and without an appended "(月)" token parse
to the same instant. -/
theorem C6_weekday_token_ignored_witness :
    parse_post_date "10/20 15:30(月)" ⟨2025, 10, 12, 0, 0, 0⟩ =
      parse_post_date "10/20 15:30" ⟨2025, 10, 12, 0, 0, 0⟩ := by
  have heq : ("10/20 15:30" ++ (⟨['(', '月', ')']⟩ : String)) = "10/20 15:30(月)" := by decide
  rw [← heq]
  exact C6_weekday_token_ignored "10/20 15:30" '月' ⟨2025, 10, 12, 0, 0, 0⟩
    (by decide) (by decide)

/- ===== claim theorems: enrichment (C1, C2) ===== -/

/-- C1 counterexample: a comment-only refresh (body already fetched, post date
one day before the reference instant, well within the three-day window) where
the fetch reports the article unavailable: the stored body "text" is
overwritten with the unavailable sentinel (main.py lines 743–747), so the
refresh does not leave the body field unchanged. -/
theorem C1_counterexample :
    is_content_fetched "text" = true ∧
    is_within_three_days ⟨2025, 10, 12, 12, 0, 0⟩ "2025/10/11 10:00:00" = true ∧
    (enrichRow ⟨2025, 10, 12, 12, 0, 0⟩
        ⟨"https://news.yahoo.co.jp/articles/abc", "t", "2025/10/11 10:00:00", "src",
          "text", "5", "", "", ""⟩
        ⟨"本文取得不可", -1, none⟩).1.body = "本文取得不可" ∧
    ("text" : String) ≠ "本文取得不可" := by
  refine ⟨by decide, by decide, by decide, by decide⟩

/-- C1 (amended): during a comment-only refresh (valid URL, body already
fetched, post date within the three-day window) the fetched body is discarded
and only the comment count is written back — except that when the fetch
reports the article unavailable the stored body is overwritten with the
unavailable sentinel; postedAt, source, url, title and the three label
columns are never changed by such a refresh, and a fetch without a comment
count (−1) leaves the stored count in place. -/
theorem C1_comment_only_refresh (now : PyDateTime) (r : NewsRow) (f : FetchResult)
    (hurl : urlValid r.url = true)
    (hcf : is_content_fetched r.body = true)
    (hw : is_within_three_days now r.postedAt = true) :
    ((enrichRow now r f).1.url = r.url ∧ (enrichRow now r f).1.title = r.title ∧
     (enrichRow now r f).1.postedAt = r.postedAt ∧ (enrichRow now r f).1.source = r.source ∧
     (enrichRow now r f).1.company = r.company ∧ (enrichRow now r f).1.category = r.category ∧
     (enrichRow now r f).1.sentiment = r.sentiment) ∧
    (f.body ≠ sentinelBody → (enrichRow now r f).1.body = r.body) ∧
    (f.body = sentinelBody → (enrichRow now r f).1.body = sentinelBody) ∧
    (f.commentCount = -1 → (enrichRow now r f).1.commentCount = r.commentCount) ∧
    (f.commentCount ≠ -1 →
      (enrichRow now r f).1.commentCount = toString f.commentCount) := by
  have he : enrichRow now r f =
      ({ r with
          body := if decide (f.body = sentinelBody) then sentinelBody else r.body,
          commentCount := if decide (f.commentCount ≠ -1) then toString f.commentCount
            else r.commentCount }, true) := by
    unfold enrichRow
    rw [if_neg (by simp [hurl])]
    rw [if_neg (by simp [hcf, hw])]
    simp only [hcf, hw, Bool.not_true, Bool.and_true, Bool.true_and, Bool.false_and,
      Bool.and_false, Bool.false_or, Bool.or_false, if_false, Bool.false_eq_true]
  rw [he]
  refine ⟨⟨rfl, rfl, rfl, rfl, rfl, rfl, rfl⟩, ?_, ?_, ?_, ?_⟩
  · intro h; simp [h]
  · intro h; simp [h]
  · intro h; simp [h]
  · intro h; simp [h]

/-- C1 witness: a comment-only refresh whose fetch succeeds with body "newbody"
and 7 comments leaves the stored body "text" in place and writes only the
count. -/
theorem C1_comment_only_refresh_witness :
    (enrichRow ⟨2025, 10, 12, 12, 0, 0⟩
        ⟨"https://news.yahoo.co.jp/articles/abc", "t", "2025/10/11 10:00:00", "src",
          "text", "5", "", "", ""⟩
        ⟨"newbody", 7, none⟩).1.body = "text" ∧
    (enrichRow ⟨2025, 10, 12, 12, 0, 0⟩
        ⟨"https://news.yahoo.co.jp/articles/abc", "t", "2025/10/11 10:00:00", "src",
          "text", "5", "", "", ""⟩
        ⟨"newbody", 7, none⟩).1.commentCount = "7" := by
  have h := C1_comment_only_refresh ⟨2025, 10, 12, 12, 0, 0⟩
    ⟨"https://news.yahoo.co.jp/articles/abc", "t", "2025/10/11 10:00:00", "src",
      "text", "5", "", "", ""⟩
    ⟨"newbody", 7, none⟩ (by decide) (by decide) (by decide)
  exact ⟨h.2.1 (by decide), h.2.2.2.2 (by decide)⟩

/-- C2 counterexample: a row whose body is already fetched but whose comment
count is unset and whose postedAt is the unavailable sentinel is skipped
without any fetch: the sentinel date fails to parse, so the row falls outside
the recency window and the planner performs no fetch (main.py lines 699–717),
contrary to the claim that such a row is never skipped. -/
theorem C2_counterexample :
    pyStrip ("" : String).data = [] ∧
    (enrichRow ⟨2025, 10, 12, 12, 0, 0⟩
        ⟨"https://news.yahoo.co.jp/articles/abc", "t", "取得不可", "src",
          "text", "", "", "", ""⟩
        ⟨"text", 5, none⟩).2 = false ∧
    (enrichRow ⟨2025, 10, 12, 12, 0, 0⟩
        ⟨"https://news.yahoo.co.jp/articles/abc", "t", "取得不可", "src",
          "text", "", "", "", ""⟩
        ⟨"text", 5, none⟩).1 =
      ⟨"https://news.yahoo.co.jp/articles/abc", "t", "取得不可", "src",
        "text", "", "", "", ""⟩ := by
  refine ⟨by decide, by decide, by decide⟩

/-- C2 (amended): for a row with a valid URL the detail fetch is performed
iff the body is unfetched (blank or the unavailable sentinel) or the body is
fetched and the parsed post date lies within the three-day recency window;
an unset comment count or a sentinel postedAt does not by itself trigger a
fetch. -/
theorem C2_planner_fetch_condition (now : PyDateTime) (r : NewsRow) (f : FetchResult)
    (hurl : urlValid r.url = true) :
    (enrichRow now r f).2 =
      (!is_content_fetched r.body || is_within_three_days now r.postedAt) := by
  unfold enrichRow
  rw [if_neg (by simp [hurl])]
  by_cases hcf : is_content_fetched r.body <;>
    by_cases hw : is_within_three_days now r.postedAt <;>
    simp [hcf, hw]

/-- C2 witness: a row with an unfetched (blank) body is fetched, and the
theorem's equivalence evaluates accordingly on it. -/
theorem C2_planner_fetch_condition_witness :
    (enrichRow ⟨2025, 10, 12, 12, 0, 0⟩
        ⟨"https://news.yahoo.co.jp/articles/abc", "t", "取得不可", "src",
          "", "", "", "", ""⟩
        ⟨"text", 5, none⟩).2 =
      (!is_content_fetched "" || is_within_three_days ⟨2025, 10, 12, 12, 0, 0⟩ "取得不可") := by
  exact C2_planner_fetch_condition ⟨2025, 10, 12, 12, 0, 0⟩
    ⟨"https://news.yahoo.co.jp/articles/abc", "t", "取得不可", "src", "", "", "", "", ""⟩
    ⟨"text", 5, none⟩ (by decide)

/- ===== claim theorems: analysis stage (C3, C10) ===== -/

lemma analyzeSheetFrom_append (ck pk : Bool) (att : Nat → Nat → GeminiAttempt)
    (i : Nat) (xs ys xs' : List NewsRow)
    (h : analyzeSheetFrom ck pk att i xs = .completed xs') :
    analyzeSheetFrom ck pk att i (xs ++ ys) =
      appendRowsOutcome xs' (analyzeSheetFrom ck pk att (i + xs.length) ys) := by
  induction xs generalizing i xs' with
  | nil =>
    rw [analyzeSheetFrom] at h
    injection h with h
    subst h
    cases hr : analyzeSheetFrom ck pk att (i + [].length) ys <;>
      simp_all [appendRowsOutcome]
  | cons r xs ih =>
    rw [List.cons_append]
    rw [analyzeSheetFrom] at h ⊢
    cases hstep : analyzeRowStep ck pk (att i) r with
    | abort =>
      rw [hstep] at h
      exact absurd h (by simp)
    | write rNew =>
      rw [hstep] at h
      dsimp only at h
      cases hrec : analyzeSheetFrom ck pk att (i + 1) xs with
      | completed tail =>
        rw [hrec] at h
        simp only [consOutcome] at h
        injection h with h
        subst h
        rw [ih (i + 1) tail hrec]
        have hlen : i + 1 + xs.length = i + (r :: xs).length := by
          rw [List.length_cons]
          omega
        rw [hlen]
        cases analyzeSheetFrom ck pk att (i + (r :: xs).length) ys <;>
          simp [consOutcome, appendRowsOutcome]
      | aborted rs c =>
        rw [hrec] at h
        simp [consOutcome] at h

/-- C3: a quota error is not retried and aborts the whole remaining run: if
the rows before index `i + pre.length` all completed (labels `pre'` already
written back) and the row `r` at that index needs analysis, has a body and a
URL, and its very first Gemini attempt reports a quota error, then the stage
ends in the aborted state with exit code 1, with `r` and every following row
left exactly as they were (the in-progress triple is never written) and the
earlier rows keeping their written labels (no rollback). -/
theorem C3_quota_aborts_run (att : Nat → Nat → GeminiAttempt) (i : Nat)
    (pre rest pre' : List NewsRow) (r : NewsRow)
    (hpre : analyzeSheetFrom true true att i pre = .completed pre')
    (hna : needsAnalysis r = true)
    (hbody1 : pyStrip r.body.data ≠ []) (hbody2 : r.body ≠ sentinelBody)
    (hurl : pyStrip r.url.data ≠ [])
    (hq : att (i + pre.length) 0 = .quota) :
    analyzeSheetFrom true true att i (pre ++ r :: rest) =
      .aborted (pre' ++ r :: rest) 1 := by
  rw [analyzeSheetFrom_append true true att i pre (r :: rest) pre' hpre]
  have hgem : analyze_with_gemini true true r.body (att (i + pre.length)) = .abortQuota := by
    unfold analyze_with_gemini
    rw [if_neg (by decide : ¬((!true) = true))]
    rw [if_neg hbody1]
    rw [if_neg (by decide : ¬((!true) = true))]
    show analyzeLoopF (att (i + pre.length)) 0 3 = .abortQuota
    rw [analyzeLoopF, hq]
  have hstep : analyzeRowStep true true (att (i + pre.length)) r = .abort := by
    unfold analyzeRowStep
    rw [if_neg (by simp [hna])]
    rw [if_neg (by simp [hbody1, hbody2])]
    rw [if_neg (by simp [hurl])]
    rw [hgem]
  rw [analyzeSheetFrom, hstep]
  simp [appendRowsOutcome]

/-- C3 witness: three rows; row 0 succeeds, row 1 hits the quota error on its
first attempt.  The run aborts with exit 1: row 0 keeps its written labels,
rows 1 and 2 stay untouched. -/
theorem C3_quota_aborts_run_witness :
    analyzeSheetFrom true true
      (fun j _ => if j = 0 then .ok "A" "B" "C" else .quota) 0
      ([⟨"u1", "t1", "d1", "s1", "b1", "3", "", "", ""⟩] ++
        ⟨"u2", "t2", "d2", "s2", "b2", "4", "", "", ""⟩ ::
          [⟨"u3", "t3", "d3", "s3", "b3", "5", "", "", ""⟩]) =
      .aborted ([⟨"u1", "t1", "d1", "s1", "b1", "3", "A", "B", "C"⟩] ++
        ⟨"u2", "t2", "d2", "s2", "b2", "4", "", "", ""⟩ ::
          [⟨"u3", "t3", "d3", "s3", "b3", "5", "", "", ""⟩]) 1 := by
  exact C3_quota_aborts_run (fun j _ => if j = 0 then .ok "A" "B" "C" else .quota) 0
    [⟨"u1", "t1", "d1", "s1", "b1", "3", "", "", ""⟩]
    [⟨"u3", "t3", "d3", "s3", "b3", "5", "", "", ""⟩]
    [⟨"u1", "t1", "d1", "s1", "b1", "3", "A", "B", "C"⟩]
    ⟨"u2", "t2", "d2", "s2", "b2", "4", "", "", ""⟩
    (by decide) (by decide) (by decide) (by decide) (by decide) (by decide)

/-- C10: when a row's Gemini call fails with non-quota errors on all three
attempts, the literal ERROR triple is written into the three label columns;
the resulting row no longer satisfies `needsAnalysis`, so any later pass of
the analysis stage — whatever its attempt oracle — leaves it unchanged: the
ERROR labels are a permanent fixed point of the analysis stage. -/
theorem C10_error_labels_are_fixed_point (att : Nat → Nat → GeminiAttempt) (i : Nat)
    (r : NewsRow) (rest : List NewsRow)
    (hna : needsAnalysis r = true)
    (hbody1 : pyStrip r.body.data ≠ []) (hbody2 : r.body ≠ sentinelBody)
    (hurl : pyStrip r.url.data ≠ [])
    (herr : ∀ k, k < MAX_RETRIES → att i k = .err) :
    analyzeSheetFrom true true att i (r :: rest) =
      consOutcome { r with company := "ERROR", category := "ERROR", sentiment := "ERROR" }
        (analyzeSheetFrom true true att (i + 1) rest) ∧
    needsAnalysis { r with company := "ERROR", category := "ERROR", sentiment := "ERROR" }
      = false ∧
    (∀ (att2 : Nat → Nat → GeminiAttempt) (j : Nat) (rest2 : List NewsRow),
      analyzeSheetFrom true true att2 j
          ({ r with company := "ERROR", category := "ERROR", sentiment := "ERROR" } :: rest2) =
        consOutcome { r with company := "ERROR", category := "ERROR", sentiment := "ERROR" }
          (analyzeSheetFrom true true att2 (j + 1) rest2)) := by
  have hloop : analyzeLoop (att i) = .labels "ERROR" "ERROR" "ERROR" := by
    show analyzeLoopF (att i) 0 3 = .labels "ERROR" "ERROR" "ERROR"
    rw [analyzeLoopF, herr 0 (by decide)]
    rw [if_pos (by decide : 0 < MAX_RETRIES - 1)]
    rw [analyzeLoopF, herr 1 (by decide)]
    rw [if_pos (by decide : 1 < MAX_RETRIES - 1)]
    rw [analyzeLoopF, herr 2 (by decide)]
    rw [if_neg (by decide : ¬(2 < MAX_RETRIES - 1))]
  have hgem : analyze_with_gemini true true r.body (att i) =
      .labels "ERROR" "ERROR" "ERROR" := by
    unfold analyze_with_gemini
    rw [if_neg (by decide : ¬((!true) = true))]
    rw [if_neg hbody1]
    rw [if_neg (by decide : ¬((!true) = true))]
    exact hloop
  have hstep : analyzeRowStep true true (att i) r =
      .write { r with company := "ERROR", category := "ERROR", sentiment := "ERROR" } := by
    unfold analyzeRowStep
    rw [if_neg (by simp [hna])]
    rw [if_neg (by simp [hbody1, hbody2])]
    rw [if_neg (by simp [hurl])]
    rw [hgem]
  have hnaE : needsAnalysis
      { r with company := "ERROR", category := "ERROR", sentiment := "ERROR" } = false := by
    rfl
  refine ⟨?_, hnaE, ?_⟩
  · rw [analyzeSheetFrom, hstep]
  · intro att2 j rest2
    rw [analyzeSheetFrom]
    have : analyzeRowStep true true (att2 j)
        { r with company := "ERROR", category := "ERROR", sentiment := "ERROR" } =
        .write { r with company := "ERROR", category := "ERROR", sentiment := "ERROR" } := by
      unfold analyzeRowStep
      rw [if_pos (by simp [hnaE])]
    rw [this]

/-- C10 witness: a single row failing all three attempts gets the ERROR
triple, which a second pass (with an oracle that would now succeed) leaves
untouched. -/
theorem C10_error_labels_are_fixed_point_witness :
    analyzeSheetFrom true true (fun _ _ => .err) 0
        [⟨"u1", "t1", "d1", "s1", "b1", "3", "", "", ""⟩] =
      .completed [⟨"u1", "t1", "d1", "s1", "b1", "3", "ERROR", "ERROR", "ERROR"⟩] ∧
    analyzeSheetFrom true true (fun _ _ => .ok "A" "B" "C") 0
        [⟨"u1", "t1", "d1", "s1", "b1", "3", "ERROR", "ERROR", "ERROR"⟩] =
      .completed [⟨"u1", "t1", "d1", "s1", "b1", "3", "ERROR", "ERROR", "ERROR"⟩] := by
  have h := C10_error_labels_are_fixed_point (fun _ _ => .err) 0
    ⟨"u1", "t1", "d1", "s1", "b1", "3", "", "", ""⟩ []
    (by decide) (by decide) (by decide) (by decide) (fun k _ => rfl)
  constructor
  · rw [h.1]
    decide
  · rw [h.2.2 (fun _ _ => .ok "A" "B" "C") 0 []]
    decide

/- ===== claim theorems: deduplication (C7) ===== -/

lemma stringList_contains_iff (l : List String) (a : String) :
    l.contains a = true ↔ a ∈ l := by
  show l.elem a = true ↔ a ∈ l
  exact List.elem_iff

lemma mem_existingUrls_countUrl (rows : List (List String)) (u : String)
    (h : u ∈ existingUrls rows) : 0 < countUrl rows u := by
  unfold existingUrls at h
  simp only [List.mem_map, List.mem_filter] at h
  obtain ⟨row, ⟨hrow, -⟩, hu⟩ := h
  unfold countUrl
  rw [List.length_pos_iff_exists_mem]
  exact ⟨row, List.mem_filter.mpr ⟨hrow, by simpa using hu⟩⟩

/-- C7: deduplication is exact set difference on the URL key.  For a
candidate article with an http URL not yet in the store: the discovery pass
leaves every existing row unchanged in place (the old store is a prefix of
the new one), appends exactly one row for the new URL, and a second pass that
discovers the same URL again appends nothing at all — the store afterwards
still holds exactly one row for that URL. -/
theorem C7_dedup_set_difference (rows : List (List String)) (a : Article)
    (hhttp : isPrefixLC "http".data a.url.data = true)
    (hnew : countUrl rows a.url = 0) :
    (write_news_list rows [a]).take rows.length = rows ∧
    countUrl (write_news_list rows [a]) a.url = 1 ∧
    write_news_list (write_news_list rows [a]) [a] = write_news_list rows [a] := by
  have hnotin : a.url ∉ existingUrls rows := fun hmem => by
    have := mem_existingUrls_countUrl rows a.url hmem
    omega
  have hc : (existingUrls rows).contains a.url = false := by
    by_contra hcb
    rw [Bool.not_eq_false] at hcb
    exact hnotin ((stringList_contains_iff _ _).mp hcb)
  have h1 : write_news_list rows [a] = rows ++ [articleRow a] := by
    unfold write_news_list
    rw [List.filter_cons]
    simp [hnotin]
  have h2 : countUrl (rows ++ [articleRow a]) a.url = 1 := by
    unfold countUrl at hnew ⊢
    rw [List.filter_append, List.length_append, hnew]
    simp [articleRow]
  have hmem2 : a.url ∈ existingUrls (rows ++ [articleRow a]) := by
    unfold existingUrls
    simp only [List.filter_append, List.map_append, List.mem_append]
    right
    simp [articleRow, hhttp]
  have hc2 : (existingUrls (rows ++ [articleRow a])).contains a.url = true :=
    (stringList_contains_iff _ _).mpr hmem2
  refine ⟨?_, ?_, ?_⟩
  · rw [h1]
    exact List.take_left rows [articleRow a]
  · rw [h1]
    exact h2
  · rw [h1]
    unfold write_news_list
    rw [List.filter_cons]
    simp [hmem2]

/-- C7 witness: an empty store plus the same article discovered in two
successive runs ends with exactly one row for its URL. -/
theorem C7_dedup_set_difference_witness :
    (write_news_list [] [⟨"https://news.yahoo.co.jp/articles/abc", "t", "d", "s"⟩]).take
        ([] : List (List String)).length = [] ∧
    countUrl (write_news_list [] [⟨"https://news.yahoo.co.jp/articles/abc", "t", "d", "s"⟩])
        "https://news.yahoo.co.jp/articles/abc" = 1 ∧
    write_news_list
        (write_news_list [] [⟨"https://news.yahoo.co.jp/articles/abc", "t", "d", "s"⟩])
        [⟨"https://news.yahoo.co.jp/articles/abc", "t", "d", "s"⟩] =
      write_news_list [] [⟨"https://news.yahoo.co.jp/articles/abc", "t", "d", "s"⟩] :=
  C7_dedup_set_difference [] ⟨"https://news.yahoo.co.jp/articles/abc", "t", "d", "s"⟩
    (by decide) (by decide)

/- ===== claim theorems: body fetch (C8) ===== -/

/-- C8 counterexample: an environment in which the article's second page
(`?page=2`) exists and yields body content, yet the fetch requests only the
base URL once and returns only page one's text — the multi-page loop the
claim describes was removed from the code (main.py lines 393–419), although
the maximum page count constant (10) still allows further pages. -/
theorem C8_counterexample :
    fetch_article_body_and_comments
        (fun u _ => if u = "https://news.yahoo.co.jp/articles/abc" then
            HttpOutcome.success ⟨["page one text"], some 5, none⟩
          else HttpOutcome.success ⟨["page two text"], some 5, none⟩)
        "https://news.yahoo.co.jp/articles/abc" =
      ⟨["https://news.yahoo.co.jp/articles/abc"], "page one text", 5, none⟩ ∧
    (fun (u : String) (_ : Nat) => if u = "https://news.yahoo.co.jp/articles/abc" then
        HttpOutcome.success ⟨["page one text"], some 5, none⟩
      else HttpOutcome.success ⟨["page two text"], some 5, none⟩)
      "https://news.yahoo.co.jp/articles/abc?page=2" 0 =
        HttpOutcome.success ⟨["page two text"], some 5, none⟩ ∧
    "https://news.yahoo.co.jp/articles/abc?page=2" ∉
      (fetch_article_body_and_comments
        (fun u _ => if u = "https://news.yahoo.co.jp/articles/abc" then
            HttpOutcome.success ⟨["page one text"], some 5, none⟩
          else HttpOutcome.success ⟨["page two text"], some 5, none⟩)
        "https://news.yahoo.co.jp/articles/abc").requested ∧
    MAX_PAGES = 10 := by
  refine ⟨by decide, by decide, by decide, by decide⟩

/-- C8 (amended): the body fetch requests only the first page — every HTTP
request it makes targets the base URL with the query string stripped, never a
page-incremented URL; an HTTP 404 gives up immediately after one attempt with
no backoff; three straight non-404 failures exhaust the retry budget
(max_retries = 3) with doubling backoff waits of 1 then 2 seconds; and a
success after a failure returns that response on the second attempt. -/
theorem C8_single_page_and_retry_policy :
    (∀ (net : String → Nat → HttpOutcome) (url u : String),
        u ∈ (fetch_article_body_and_comments net url).requested →
        u = (⟨url.data.takeWhile (fun c => !(decide (c = '?')))⟩ : String)) ∧
    (∀ out : Nat → HttpOutcome, out 0 = .notFound →
        request_with_retry out = (none, [], 1)) ∧
    (∀ out : Nat → HttpOutcome, out 0 = .failure → out 1 = .failure → out 2 = .failure →
        request_with_retry out = (none, [1, 2], 3)) ∧
    (∀ (out : Nat → HttpOutcome) (p : PageContent), out 0 = .failure → out 1 = .success p →
        request_with_retry out = (some p, [1], 2)) := by
  refine ⟨?_, ?_, ?_, ?_⟩
  · intro net url u hu
    unfold fetch_article_body_and_comments at hu
    split at hu
    · simp at hu
    · dsimp only at hu
      rcases hreq : request_with_retry
          (net (⟨url.data.takeWhile (fun c => !(decide (c = '?')))⟩ : String)) with
        ⟨resp, waits, attempts⟩
      rw [hreq] at hu
      cases resp <;> dsimp only at hu <;> exact List.eq_of_mem_replicate hu
  · intro out h0
    unfold request_with_retry
    rw [requestLoopF, h0]
  · intro out h0 h1 h2
    unfold request_with_retry
    rw [requestLoopF, h0]
    rw [if_pos (by omega : 0 < 3 - 1)]
    rw [requestLoopF, h1]
    rw [if_pos (by omega : 1 < 3 - 1)]
    rw [requestLoopF, h2]
    rw [if_neg (by omega : ¬(2 < 3 - 1))]
    simp
  · intro out p h0 h1
    unfold request_with_retry
    rw [requestLoopF, h0]
    rw [if_pos (by omega : 0 < 3 - 1)]
    rw [requestLoopF, h1]
    simp

/-- C8 witness: the policy conjuncts evaluated at concrete oracles — a fetch
whose page-1 request succeeds targets only the base URL; a 404, a triple
failure and a fail-then-succeed run of the retry helper behave as stated. -/
theorem C8_single_page_and_retry_policy_witness :
    ("https://news.yahoo.co.jp/articles/ab" =
      (⟨("https://news.yahoo.co.jp/articles/ab?x=1" : String).data.takeWhile
        (fun c => !(decide (c = '?')))⟩ : String)) ∧
    request_with_retry (fun _ => .notFound) = (none, [], 1) ∧
    request_with_retry (fun _ => .failure) = (none, [1, 2], 3) ∧
    request_with_retry
        (fun k => if k = 0 then .failure else .success ⟨["p"], none, none⟩) =
      (some ⟨["p"], none, none⟩, [1], 2) := by
  refine ⟨?_, ?_, ?_, ?_⟩
  · exact C8_single_page_and_retry_policy.1
      (fun _ _ => HttpOutcome.success ⟨["p"], none, none⟩)
      "https://news.yahoo.co.jp/articles/ab?x=1"
      "https://news.yahoo.co.jp/articles/ab" (by decide)
  · exact C8_single_page_and_retry_policy.2.1 (fun _ => .notFound) rfl
  · exact C8_single_page_and_retry_policy.2.2.1 (fun _ => .failure) rfl rfl rfl
  · exact C8_single_page_and_retry_policy.2.2.2
      (fun k => if k = 0 then .failure else .success ⟨["p"], none, none⟩)
      ⟨["p"], none, none⟩ rfl rfl

/- ===== claim theorems: startup (C9) ===== -/

/-- C9 counterexample: with the keyword file missing the process exits before
any work, but with status code 0 (the `sys.exit(0)` on main.py line 870),
not the fatal-initialization status 1 the claim asserts. -/
theorem C9_counterexample :
    mainRun none true false = (0, []) ∧ (mainRun none true false).1 ≠ 1 := by
  refine ⟨rfl, by decide⟩

/-- C9 (amended): a missing keyword file, or one with no valid keywords,
aborts the run before any discovery, enrichment, sorting or analysis work —
but with exit status 0, the graceful no-keyword early exit, not status 1. -/
theorem C9_no_keywords_graceful_exit (file : Option (List String))
    (credsOk quotaAbort : Bool) (h : load_keywords file = []) :
    mainRun file credsOk quotaAbort = (0, []) := by
  unfold mainRun
  simp [h]

/-- C9 witness: a keyword file holding only a comment line and a blank line
yields no keywords; the run performs no stage and exits 0. -/
theorem C9_no_keywords_graceful_exit_witness :
    mainRun (some ["# maker list", "   "]) true false = (0, []) :=
  C9_no_keywords_graceful_exit (some ["# maker list", "   "]) true false (by decide)

